import Mathlib

/-!
Verification of the bridge reliability subsystem of the
starter-rust-webuivanilla-rsbuild repository: the connection-state machine,
the lifecycle event queue, the binding resolver and the window registry.

The definitions below are shallow embeddings of the TypeScript source
(the `App` class in `src/unnamed/part_014` and, where cited, the refactored
`BackendBridge` class in `src/frontend/src/app/backend-bridge.ts`):

* timestamps (ISO strings / `Date.now()` millisecond counts) are `Nat`;
* the ambient `window` object is abstracted as explicit environment records
  describing which backend callables resolve and how they behave;
* asynchronous `webui.call(...).then/.catch` completions are out of the
  synchronous model: a call through the generic bridge primitive is recorded
  as dispatched (its counter updates happen later, outside the call).
-/

namespace WebuiBridge

/-- The `WsConnectionState` union type of the source. -/
inductive WsConnectionState where
  | initializing
  | connected
  | disconnected
  | reconnecting
  | bridge_missing
  | error
deriving DecidableEq, Repr

/-- The `WindowLifecycleState` union type of the source. -/
inductive WindowLifecycleState where
  | opened
  | focused
  | active
  | minimized
  | restored
  | closed
deriving DecidableEq, Repr

/-- The `WindowLifecyclePayload` interface of the source; the ISO timestamp
string is modelled as a millisecond count. -/
structure WindowLifecyclePayload where
  event : WindowLifecycleState
  window_id : String
  title : String
  timestamp : Nat
deriving DecidableEq, Repr

/-- Accumulated backend-send metrics of the `App` class (`wsBackendSendOk`,
`wsBackendSendFail`, `wsLastError`, `wsBackendLastOkAt`), together with a
count of `updateWsStatusBar` diagnostics refreshes (the source re-renders a
DOM panel; the model counts invocations). -/
structure BridgeMetrics where
  wsBackendSendOk : Nat := 0
  wsBackendSendFail : Nat := 0
  wsLastError : String := ""
  wsBackendLastOkAt : Option Nat := none
  statusBarRefreshes : Nat := 0
deriving DecidableEq, Repr

/-- Behaviour of the direct backend callable that `resolveBackendBinding`
finds for an operation name, if any: it either returns normally or throws. -/
inductive BindingBehavior where
  | ok
  | throws (msg : String)
deriving DecidableEq, Repr

/-- The ambient `window` contents consulted by one `callBackend` invocation:
whether a direct callable resolves (and how it behaves when invoked), and
whether `window.webui` with a `call` function is available. -/
structure CallEnv where
  binding : Option BindingBehavior
  webuiAvailable : Bool
deriving DecidableEq, Repr

/-- Result of one `callBackend` invocation: the updated metrics, the boolean
the method returns, and whether the generic `webui.call` primitive was used. -/
structure CallOutcome where
  metrics : BridgeMetrics
  dispatched : Bool
  usedWebuiFallback : Bool
deriving DecidableEq, Repr

/-- `callBackend` from `src/unnamed/part_014` lines 4309-4352 (identical in
`backend-bridge.ts` lines 154-197).  A resolved direct callable is invoked
inside try/catch: on success the success counter and last-ok stamp update and
the method returns `true`; on a throw the failure counter, error string
(`name: message`) and status-bar refresh update and control FALLS THROUGH to
the `window.webui` check.  If `webui.call` is available the call is dispatched
through it (asynchronous completion not modelled) and the method returns
`true`, otherwise it returns `false`. -/
def callBackend (env : CallEnv) (m : BridgeMetrics) (name : String) (now : Nat) :
    CallOutcome :=
  match env.binding with
  | some .ok =>
    { metrics := { m with
        wsBackendSendOk := m.wsBackendSendOk + 1,
        wsBackendLastOkAt := some now },
      dispatched := true, usedWebuiFallback := false }
  | some (.throws msg) =>
    let m := { m with
      wsBackendSendFail := m.wsBackendSendFail + 1,
      wsLastError := name ++ ": " ++ msg,
      statusBarRefreshes := m.statusBarRefreshes + 1 }
    if env.webuiAvailable then
      { metrics := m, dispatched := true, usedWebuiFallback := true }
    else
      { metrics := m, dispatched := false, usedWebuiFallback := false }
  | none =>
    if env.webuiAvailable then
      { metrics := m, dispatched := true, usedWebuiFallback := true }
    else
      { metrics := m, dispatched := false, usedWebuiFallback := false }

/-- `flushLifecycleQueue` from `src/unnamed/part_014` lines 4358-4368
(identical in `backend-bridge.ts` lines 203-213): snapshot the queue, clear
it, and for each pending payload in order re-push it exactly when
`sendLifecycleToBackend` returns `false`.  The per-payload dispatch result is
abstracted as `deliver` (the underlying callable reads the ambient `window`
at each call and may throw on some payloads only). -/
def flushLifecycleQueue (deliver : WindowLifecyclePayload → Bool)
    (q : List WindowLifecyclePayload) : List WindowLifecyclePayload :=
  if q.isEmpty then q
  else q.foldl (fun acc p => if deliver p then acc else acc ++ [p]) []

/-- Iterated flush cycles, one `deliver` environment per cycle. -/
def flushCycles (q : List WindowLifecyclePayload)
    (ds : List (WindowLifecyclePayload → Bool)) : List WindowLifecyclePayload :=
  ds.foldl (fun acc d => flushLifecycleQueue d acc) q

theorem foldl_requeue (deliver : WindowLifecyclePayload → Bool)
    (q acc : List WindowLifecyclePayload) :
    q.foldl (fun acc p => if deliver p then acc else acc ++ [p]) acc
      = acc ++ q.filter (fun p => !deliver p) := by
  induction q generalizing acc with
  | nil => simp
  | cons p t ih =>
    by_cases h : deliver p <;> simp [List.foldl_cons, h, ih]

theorem flushLifecycleQueue_eq_filter (deliver : WindowLifecyclePayload → Bool)
    (q : List WindowLifecyclePayload) :
    flushLifecycleQueue deliver q = q.filter (fun p => !deliver p) := by
  unfold flushLifecycleQueue
  by_cases h : q.isEmpty
  · simp_all [List.isEmpty_iff]
  · simp [h, foldl_requeue]

theorem flushCycles_sublist (q : List WindowLifecyclePayload)
    (ds : List (WindowLifecyclePayload → Bool)) :
    (flushCycles q ds).Sublist q := by
  induction ds generalizing q with
  | nil => simp [flushCycles]
  | cons d t ih =>
    have h1 : (flushCycles (flushLifecycleQueue d q) t).Sublist (flushLifecycleQueue d q) :=
      ih _
    have h2 : (flushLifecycleQueue d q).Sublist q := by
      rw [flushLifecycleQueue_eq_filter]; exact List.filter_sublist q
    exact (show flushCycles q (d :: t)
        = flushCycles (flushLifecycleQueue d q) t from rfl) ▸ h1.trans h2

/-- C1: on every flush the queue is snapshotted and cleared, dispatch is
attempted for each snapshotted payload in original insertion order, exactly
the payloads whose dispatch returns `false` are re-enqueued in their original
relative order (the result is the in-order filter of the snapshot by failed
dispatch), and across any sequence of flush cycles the undelivered payloads
form a sublist of the original queue — they are never reordered relative to
each other. -/
theorem C1_flush_requeues_failed_in_order :
    ∀ (deliver : WindowLifecyclePayload → Bool) (q : List WindowLifecyclePayload),
      flushLifecycleQueue deliver q = q.filter (fun p => !deliver p)
      ∧ ∀ (ds : List (WindowLifecyclePayload → Bool)), (flushCycles q ds).Sublist q :=
  fun deliver q => ⟨flushLifecycleQueue_eq_filter deliver q, flushCycles_sublist q⟩

/-! ### C2: direct-callable throw handling in `callBackend` -/

/-- C2 counterexample: the claim says that after a direct callable throws the
call "is considered dispatched (the call returns true) with no automatic
fallback to the generic bridge invocation primitive".  In the source the
catch block does not return: control falls through to the `window.webui`
check.  Concretely, with a throwing direct callable and no `webui` primitive
the call returns `false`, and with a throwing direct callable and an
available `webui` primitive the generic fallback IS used. -/
theorem C2_counterexample :
    (callBackend ⟨some (.throws "boom"), false⟩ {} "log_window_lifecycle" 0).dispatched
        = false
    ∧ (callBackend ⟨some (.throws "boom"), true⟩ {} "log_window_lifecycle" 0).usedWebuiFallback
        = true :=
  ⟨rfl, rfl⟩

/-- C2 (amended): when the resolved direct callable throws, the failure
counter is incremented, the error string is recorded as
`operationName: message`, a diagnostics refresh is triggered, and then the
generic bridge fallback IS attempted: the call returns `true` exactly when
the generic `webui.call` primitive is available, and `false` otherwise (the
success counter is untouched either way). -/
theorem C2_throw_updates_metrics_then_falls_back
    (env : CallEnv) (m : BridgeMetrics) (name : String) (now : Nat) (msg : String)
    (h : env.binding = some (.throws msg)) :
    (callBackend env m name now).metrics.wsBackendSendFail = m.wsBackendSendFail + 1
    ∧ (callBackend env m name now).metrics.wsLastError = name ++ ": " ++ msg
    ∧ (callBackend env m name now).metrics.statusBarRefreshes = m.statusBarRefreshes + 1
    ∧ (callBackend env m name now).metrics.wsBackendSendOk = m.wsBackendSendOk
    ∧ (callBackend env m name now).dispatched = env.webuiAvailable
    ∧ (callBackend env m name now).usedWebuiFallback = env.webuiAvailable := by
  obtain ⟨b, w⟩ := env
  cases h
  cases w <;> simp [callBackend]

theorem C2_throw_updates_metrics_then_falls_back_witness :
    (callBackend ⟨some (.throws "boom"), true⟩ {} "ws_heartbeat" 7).metrics.wsBackendSendFail
        = (({} : BridgeMetrics)).wsBackendSendFail + 1
    ∧ (callBackend ⟨some (.throws "boom"), true⟩ {} "ws_heartbeat" 7).metrics.wsLastError
        = "ws_heartbeat" ++ ": " ++ "boom"
    ∧ (callBackend ⟨some (.throws "boom"), true⟩ {} "ws_heartbeat" 7).metrics.statusBarRefreshes
        = (({} : BridgeMetrics)).statusBarRefreshes + 1
    ∧ (callBackend ⟨some (.throws "boom"), true⟩ {} "ws_heartbeat" 7).metrics.wsBackendSendOk
        = (({} : BridgeMetrics)).wsBackendSendOk
    ∧ (callBackend ⟨some (.throws "boom"), true⟩ {} "ws_heartbeat" 7).dispatched
        = (⟨some (.throws "boom"), true⟩ : CallEnv).webuiAvailable
    ∧ (callBackend ⟨some (.throws "boom"), true⟩ {} "ws_heartbeat" 7).usedWebuiFallback
        = (⟨some (.throws "boom"), true⟩ : CallEnv).webuiAvailable :=
  C2_throw_updates_metrics_then_falls_back ⟨some (.throws "boom"), true⟩ {}
    "ws_heartbeat" 7 "boom" rfl

/-! ### C4: the bounded lifecycle queue -/

/-- The queue-admission step of `emitWindowLifecycle` in
`src/unnamed/part_014` lines 4387-4391: `push(payload)` followed by
`if (length > 256) shift()` (evict the oldest entry). -/
def lifecycleEnqueue (q : List WindowLifecyclePayload)
    (p : WindowLifecyclePayload) : List WindowLifecyclePayload :=
  let q2 := q ++ [p]
  if q2.length > 256 then q2.drop 1 else q2

/-- A queue mutation: either an admission of a new payload (the failed-send
branch of `emitWindowLifecycle`) or a periodic flush. -/
inductive QueueOp where
  | enqueue (p : WindowLifecyclePayload)
  | flushOp (deliver : WindowLifecyclePayload → Bool)

def applyQueueOp (q : List WindowLifecyclePayload) : QueueOp → List WindowLifecyclePayload
  | .enqueue p => lifecycleEnqueue q p
  | .flushOp d => flushLifecycleQueue d q

def applyQueueOps (q : List WindowLifecyclePayload) (ops : List QueueOp) :
    List WindowLifecyclePayload :=
  ops.foldl applyQueueOp q

theorem lifecycleEnqueue_def (q : List WindowLifecyclePayload)
    (p : WindowLifecyclePayload) :
    lifecycleEnqueue q p
      = if (q ++ [p]).length > 256 then (q ++ [p]).drop 1 else q ++ [p] := rfl

theorem lifecycleEnqueue_length_le (q : List WindowLifecyclePayload)
    (p : WindowLifecyclePayload) (h : q.length ≤ 256) :
    (lifecycleEnqueue q p).length ≤ 256 := by
  rw [lifecycleEnqueue_def]
  by_cases hl : (q ++ [p]).length > 256
  · rw [if_pos hl]; simp; omega
  · rw [if_neg hl]; simp at hl ⊢; omega

theorem applyQueueOp_length_le (q : List WindowLifecyclePayload) (op : QueueOp)
    (h : q.length ≤ 256) : (applyQueueOp q op).length ≤ 256 := by
  cases op with
  | enqueue p => exact lifecycleEnqueue_length_le q p h
  | flushOp d =>
    have hsub : (flushLifecycleQueue d q).Sublist q := by
      rw [flushLifecycleQueue_eq_filter]; exact List.filter_sublist q
    exact le_trans hsub.length_le h

/-- C4: after any sequence of enqueue and flush operations starting from the
empty queue the lifecycle queue holds at most 256 entries; admitting a new
payload into a full queue evicts exactly the oldest entry; and the payload
just admitted is always the last entry of the queue (the most recently
enqueued payloads are retained). -/
theorem C4_queue_capacity_bounded :
    (∀ (ops : List QueueOp), (applyQueueOps [] ops).length ≤ 256)
    ∧ (∀ (q : List WindowLifecyclePayload) (p : WindowLifecyclePayload),
        q.length = 256 → lifecycleEnqueue q p = q.drop 1 ++ [p])
    ∧ (∀ (q : List WindowLifecyclePayload) (p : WindowLifecyclePayload),
        (lifecycleEnqueue q p).getLast? = some p) := by
  refine ⟨?_, ?_, ?_⟩
  · intro ops
    suffices h : ∀ (q : List WindowLifecyclePayload), q.length ≤ 256 →
        (applyQueueOps q ops).length ≤ 256 from h [] (by simp)
    induction ops with
    | nil => intro q hq; simpa [applyQueueOps]
    | cons op t ih =>
      intro q hq
      exact ih (applyQueueOp q op) (applyQueueOp_length_le q op hq)
  · intro q p hq
    rw [lifecycleEnqueue_def, if_pos (by simp [hq])]
    cases q with
    | nil => simp at hq
    | cons a t => simp
  · intro q p
    rw [lifecycleEnqueue_def]
    by_cases hl : (q ++ [p]).length > 256
    · rw [if_pos hl]
      cases q with
      | nil => simp at hl
      | cons a t => simp
    · rw [if_neg hl]
      simp

theorem C4_queue_capacity_bounded_witness :
    ((applyQueueOps [] []).length ≤ 256)
    ∧ ((List.replicate 256 (⟨.opened, "w", "T", 0⟩ : WindowLifecyclePayload)).length = 256
       ∧ lifecycleEnqueue (List.replicate 256 ⟨.opened, "w", "T", 0⟩) ⟨.closed, "w", "T", 9⟩
          = (List.replicate 256 (⟨.opened, "w", "T", 0⟩ : WindowLifecyclePayload)).drop 1
              ++ [⟨.closed, "w", "T", 9⟩])
    ∧ (lifecycleEnqueue [] ⟨.opened, "w", "T", 0⟩).getLast? = some ⟨.opened, "w", "T", 0⟩ :=
  ⟨C4_queue_capacity_bounded.1 [],
   ⟨List.length_replicate 256 _,
    C4_queue_capacity_bounded.2.1 (List.replicate 256 ⟨.opened, "w", "T", 0⟩)
      ⟨.closed, "w", "T", 9⟩ (List.length_replicate 256 _)⟩,
   C4_queue_capacity_bounded.2.2 [] ⟨.opened, "w", "T", 0⟩⟩

/-! ### Connection Monitor: state machine, history, handlers -/

/-- One entry of `wsStateHistory`: `{state, at, reason?}` (the `at` field is
named `atTime` here because `at` is reserved in Lean). -/
structure StateTransitionRecord where
  state : WsConnectionState
  atTime : Nat
  reason : Option String
deriving DecidableEq, Repr

/-- The Connection Monitor's fields of the `App` class in
`src/unnamed/part_014` (initializers at lines 3102-3112), restricted to the
fields the monitor logic reads or writes. -/
structure MonState where
  wsState : WsConnectionState := .initializing
  wsStateHistory : List StateTransitionRecord := []
  wsReconnectAttempts : Nat := 0
  wsLastHeartbeatAt : Option Nat := none
  metrics : BridgeMetrics := {}
deriving DecidableEq, Repr

/-- The history push plus cap of `transitionWsState`: `push(entry)` then
`if (length > 200) shift()` (drop the oldest entry). -/
def pushHistory (h : List StateTransitionRecord) (e : StateTransitionRecord) :
    List StateTransitionRecord :=
  let h2 := h ++ [e]
  if h2.length > 200 then h2.drop 1 else h2

/-- `updateWsStatusBar`: a DOM re-render of the diagnostics panel, modelled
as a refresh counter bump. -/
def updateWsStatusBar (s : MonState) : MonState :=
  { s with metrics := { s.metrics with
      statusBarRefreshes := s.metrics.statusBarRefreshes + 1 } }

/-- `reportWsStateToBackend`: builds the `ws_state_change` payload and sends
it through `callBackend`; a `false` return only logs a warning. -/
def reportWsStateToBackend (env : CallEnv) (s : MonState) (now : Nat) : MonState :=
  { s with metrics := (callBackend env s.metrics "ws_state_change" now).metrics }

/-- `transitionWsState` from `src/unnamed/part_014` lines 4104-4118: a
request whose target equals the current state and that carries no reason
returns immediately; otherwise `wsLastError` is cleared when the target is
`connected`, the state is assigned, the record is appended to the history
with the 200-entry cap, the status bar refreshes and the transition is
reported to the backend. -/
def transitionWsState (env : CallEnv) (s : MonState) (state : WsConnectionState)
    (reason : Option String) (now : Nat) : MonState :=
  if s.wsState = state ∧ reason = none then s
  else
    let s1 := if state = .connected
      then { s with metrics := { s.metrics with wsLastError := "" } } else s
    let s2 := { s1 with
      wsState := state,
      wsStateHistory := pushHistory s1.wsStateHistory ⟨state, now, reason⟩ }
    reportWsStateToBackend env (updateWsStatusBar s2) now

/-- The `window.addEventListener('online', ...)` handler of
`setupConnectionMonitoring` (lines 4172-4174): transition to `connected`
with reason `Browser online`; the reconnect-attempt counter is not touched. -/
def onlineHandler (env : CallEnv) (s : MonState) (now : Nat) : MonState :=
  transitionWsState env s .connected (some "Browser online") now

/-- The `offline` handler (lines 4168-4171): increment the reconnect-attempt
counter, then transition to `reconnecting`. -/
def offlineHandler (env : CallEnv) (s : MonState) (now : Nat) : MonState :=
  transitionWsState env { s with wsReconnectAttempts := s.wsReconnectAttempts + 1 }
    .reconnecting (some "Browser offline") now

/-- The `webui` event callback branch for the `CONNECTED` sentinel (lines
4152-4154): reset the reconnect-attempt counter to 0, then transition. -/
def webuiConnectedHandler (env : CallEnv) (s : MonState) (now : Nat) : MonState :=
  transitionWsState env { s with wsReconnectAttempts := 0 }
    .connected (some "webui CONNECTED event") now

/-- The `webui` event callback branch for the `DISCONNECTED` sentinel (lines
4155-4157): increment the counter, then transition to `disconnected`. -/
def webuiDisconnectedHandler (env : CallEnv) (s : MonState) (now : Nat) : MonState :=
  transitionWsState env { s with wsReconnectAttempts := s.wsReconnectAttempts + 1 }
    .disconnected (some "webui DISCONNECTED event") now

/-- The 1.5 s heartbeat tick (lines 4179-4201).  `connectedByApi` is the
probe result (`webui.isConnected()` when offered, else bridge presence).  A
negative probe increments the counter and transitions to `reconnecting`; a
positive probe while not `connected` transitions to `connected`.  The tick
then always pushes a `ws_heartbeat` report, stamps the heartbeat time and
refreshes the status bar. -/
def heartbeatTick (env : CallEnv) (connectedByApi : Bool) (s : MonState)
    (now : Nat) : MonState :=
  let s1 :=
    if !connectedByApi then
      transitionWsState env { s with wsReconnectAttempts := s.wsReconnectAttempts + 1 }
        .reconnecting (some "Heartbeat indicates disconnected bridge") now
    else if s.wsState ≠ .connected then
      transitionWsState env s .connected (some "Heartbeat recovered") now
    else s
  let s2 := { s1 with
    metrics := (callBackend env s1.metrics "ws_heartbeat" now).metrics,
    wsLastHeartbeatAt := some now }
  updateWsStatusBar s2

theorem callBackend_wsLastError_of_no_throw (env : CallEnv)
    (hb : ∀ msg, env.binding ≠ some (.throws msg)) (m : BridgeMetrics)
    (name : String) (now : Nat) :
    (callBackend env m name now).metrics.wsLastError = m.wsLastError := by
  obtain ⟨b, w⟩ := env
  cases b with
  | none => cases w <;> simp [callBackend]
  | some beh =>
    cases beh with
    | ok => simp [callBackend]
    | throws msg => exact absurd rfl (hb msg)

theorem transitionWsState_wsReconnectAttempts (env : CallEnv) (s : MonState)
    (state : WsConnectionState) (reason : Option String) (now : Nat) :
    (transitionWsState env s state reason now).wsReconnectAttempts
      = s.wsReconnectAttempts := by
  unfold transitionWsState reportWsStateToBackend updateWsStatusBar
  by_cases h : s.wsState = state ∧ reason = none
  · rw [if_pos h]
  · rw [if_neg h]
    by_cases hc : state = .connected <;> simp [hc]

theorem transitionWsState_wsState_accepted (env : CallEnv) (s : MonState)
    (state : WsConnectionState) (reason : Option String) (now : Nat)
    (h : ¬(s.wsState = state ∧ reason = none)) :
    (transitionWsState env s state reason now).wsState = state := by
  unfold transitionWsState reportWsStateToBackend updateWsStatusBar
  rw [if_neg h]

theorem transitionWsState_wsLastError_connected (env : CallEnv)
    (hb : ∀ msg, env.binding ≠ some (.throws msg)) (s : MonState) (r : String)
    (now : Nat) :
    (transitionWsState env s .connected (some r) now).metrics.wsLastError = "" := by
  unfold transitionWsState reportWsStateToBackend updateWsStatusBar
  rw [if_neg (by simp)]
  simp [callBackend_wsLastError_of_no_throw env hb]

/-- C3 counterexample: a concrete recovery.  The monitor is `reconnecting`
with 3 reconnect attempts; the browser `online` event fires (a
reachability-positive signal) and the state machine reaches `connected`,
yet the reconnect-attempt counter stays at 3 — it is not reset to 0 as the
claim requires. -/
theorem C3_counterexample :
    (onlineHandler ⟨some .ok, true⟩
        { wsState := .reconnecting, wsReconnectAttempts := 3,
          metrics := { wsLastError := "old failure" } } 1000).wsState
      = .connected
    ∧ (onlineHandler ⟨some .ok, true⟩
        { wsState := .reconnecting, wsReconnectAttempts := 3,
          metrics := { wsLastError := "old failure" } } 1000).wsReconnectAttempts
      = 3
    ∧ ¬ (onlineHandler ⟨some .ok, true⟩
        { wsState := .reconnecting, wsReconnectAttempts := 3,
          metrics := { wsLastError := "old failure" } } 1000).wsReconnectAttempts
      = 0 :=
  ⟨rfl, rfl, by decide⟩

/-- C3 (amended): on the browser-online and heartbeat-recovery signals the
transition to `connected` clears the last-error string (provided the
accompanying backend report does not itself throw through a direct binding),
but leaves the reconnect-attempt counter unchanged; the counter is reset to
0 only by the `webui` `CONNECTED` event handler. -/
theorem C3_recovery_clears_error_but_keeps_attempts
    (env : CallEnv) (s : MonState) (now : Nat)
    (hb : ∀ msg, env.binding ≠ some (.throws msg)) :
    (onlineHandler env s now).wsReconnectAttempts = s.wsReconnectAttempts
    ∧ (onlineHandler env s now).metrics.wsLastError = ""
    ∧ (onlineHandler env s now).wsState = .connected
    ∧ (heartbeatTick env true s now).wsReconnectAttempts = s.wsReconnectAttempts
    ∧ (s.wsState ≠ .connected →
        (heartbeatTick env true s now).metrics.wsLastError = ""
        ∧ (heartbeatTick env true s now).wsState = .connected)
    ∧ (webuiConnectedHandler env s now).wsReconnectAttempts = 0 := by
  refine ⟨?_, ?_, ?_, ?_, ?_, ?_⟩
  · exact transitionWsState_wsReconnectAttempts _ _ _ _ _
  · exact transitionWsState_wsLastError_connected env hb s _ now
  · exact transitionWsState_wsState_accepted env s .connected _ now (by simp)
  · unfold heartbeatTick updateWsStatusBar
    by_cases hs : s.wsState = .connected
    · simp [hs]
    · simp [hs, transitionWsState_wsReconnectAttempts]
  · intro hs
    unfold heartbeatTick updateWsStatusBar
    refine ⟨?_, ?_⟩
    · simp [hs, callBackend_wsLastError_of_no_throw env hb,
        transitionWsState_wsLastError_connected env hb]
    · have hacc := transitionWsState_wsState_accepted env s .connected
        (some "Heartbeat recovered") now (by simp)
      simp [hs, hacc]
  · unfold webuiConnectedHandler
    rw [transitionWsState_wsReconnectAttempts]

theorem C3_recovery_clears_error_but_keeps_attempts_witness :
    ((onlineHandler ⟨some .ok, true⟩ { wsState := .disconnected, wsReconnectAttempts := 5 }
        44).wsReconnectAttempts
      = ({ wsState := .disconnected, wsReconnectAttempts := 5 } : MonState).wsReconnectAttempts)
    ∧ (onlineHandler ⟨some .ok, true⟩ { wsState := .disconnected, wsReconnectAttempts := 5 }
        44).metrics.wsLastError = "" := by
  have h := C3_recovery_clears_error_but_keeps_attempts ⟨some .ok, true⟩
    { wsState := .disconnected, wsReconnectAttempts := 5 } 44
    (by intro msg hmsg; simp at hmsg)
  exact ⟨h.1, h.2.1⟩

/-! ### C5: history tracks the most recently accepted transition -/

/-- One transition request: the target state, optional reason, the ambient
environment seen by the backend report, and the wall-clock time. -/
structure TransRequest where
  target : WsConnectionState
  reason : Option String
  env : CallEnv
  time : Nat

def applyTransRequest (s : MonState) (r : TransRequest) : MonState :=
  transitionWsState r.env s r.target r.reason r.time

def applyTransRequests (s : MonState) (rs : List TransRequest) : MonState :=
  rs.foldl applyTransRequest s

/-- The monitor's initial state: `wsState = 'initializing'`, empty history. -/
def initMonState : MonState := {}

theorem pushHistory_getLast? (h : List StateTransitionRecord)
    (e : StateTransitionRecord) : (pushHistory h e).getLast? = some e := by
  unfold pushHistory
  by_cases hl : (h ++ [e]).length > 200
  · rw [if_pos hl]
    cases h with
    | nil => simp at hl
    | cons a t => simp
  · rw [if_neg hl]
    simp

/-- The history/state coherence invariant: when the history is non-empty its
last entry records the current state. -/
def HistoryCoherent (s : MonState) : Prop :=
  ∀ e : StateTransitionRecord, s.wsStateHistory.getLast? = some e → e.state = s.wsState

theorem transitionWsState_preserves_coherent (env : CallEnv) (s : MonState)
    (state : WsConnectionState) (reason : Option String) (now : Nat)
    (hc : HistoryCoherent s) :
    HistoryCoherent (transitionWsState env s state reason now) := by
  unfold transitionWsState
  by_cases h : s.wsState = state ∧ reason = none
  · rw [if_pos h]; exact hc
  · rw [if_neg h]
    intro e he
    unfold reportWsStateToBackend updateWsStatusBar at he ⊢
    by_cases hcon : state = .connected <;>
      simp_all [pushHistory_getLast?] <;> rw [← he]

theorem applyTransRequests_coherent (rs : List TransRequest) (s : MonState)
    (hc : HistoryCoherent s) : HistoryCoherent (applyTransRequests s rs) := by
  induction rs generalizing s with
  | nil => exact hc
  | cons r t ih =>
    exact ih (applyTransRequest s r)
      (transitionWsState_preserves_coherent r.env s r.target r.reason r.time hc)

/-- C5: after any sequence of transition requests starting from the initial
monitor state, whenever the transition history is non-empty its last entry's
state equals the current connection state (the target of the most recently
accepted transition), and a request targeting the current state with no
explicit reason is a no-op returning the state unchanged — it appends
nothing to the history. -/
theorem C5_state_matches_last_accepted_transition (rs : List TransRequest) :
    (∀ e : StateTransitionRecord,
        (applyTransRequests initMonState rs).wsStateHistory.getLast? = some e →
        e.state = (applyTransRequests initMonState rs).wsState)
    ∧ ∀ (env : CallEnv) (now : Nat),
        transitionWsState env (applyTransRequests initMonState rs)
          (applyTransRequests initMonState rs).wsState none now
          = applyTransRequests initMonState rs := by
  constructor
  · exact applyTransRequests_coherent rs initMonState
      (by intro e he; simp [initMonState] at he)
  · intro env now
    unfold transitionWsState
    rw [if_pos ⟨rfl, rfl⟩]

theorem C5_state_matches_last_accepted_transition_witness :
    ((⟨.connected, 5, some "webui bridge object detected"⟩ : StateTransitionRecord).state
        = (applyTransRequests initMonState
            [⟨.connected, some "webui bridge object detected", ⟨some .ok, true⟩, 5⟩]).wsState)
    ∧ (transitionWsState ⟨some .ok, true⟩
          (applyTransRequests initMonState
            [⟨.connected, some "webui bridge object detected", ⟨some .ok, true⟩, 5⟩])
          (applyTransRequests initMonState
            [⟨.connected, some "webui bridge object detected", ⟨some .ok, true⟩, 5⟩]).wsState
          none 77
        = applyTransRequests initMonState
            [⟨.connected, some "webui bridge object detected", ⟨some .ok, true⟩, 5⟩]) :=
  ⟨(C5_state_matches_last_accepted_transition
      [⟨.connected, some "webui bridge object detected", ⟨some .ok, true⟩, 5⟩]).1
      ⟨.connected, 5, some "webui bridge object detected"⟩ (by decide),
   (C5_state_matches_last_accepted_transition
      [⟨.connected, some "webui bridge object detected", ⟨some .ok, true⟩, 5⟩]).2
      ⟨some .ok, true⟩ 77⟩

/-! ### C9: runtime port resolution -/

/-- Source of the resolved runtime port. -/
inductive PortSource where
  | injected
  | location
  | unknown
deriving DecidableEq, Repr

/-- The page environment consulted by port resolution.  Each field is `some i`
when the corresponding JavaScript expression yields the integer `i`
(`Number.isInteger` true), and `none` otherwise (absent, `NaN`, or
fractional): `injectedGlobal` is `Number(window.__WEBUI_WS_PORT__)`,
`locationPort` is `Number(window.location?.port)` (the URL's port component),
and `wsPortParam` is the numeric value of the `ws_port` query parameter of
the page location, when present. -/
structure PageEnv where
  injectedGlobal : Option Int
  locationPort : Option Int
  wsPortParam : Option Int
deriving DecidableEq, Repr

/-- The guard `Number.isInteger(x) && x > 0 && x <= 65535`. -/
def inPortRange (x : Option Int) : Bool :=
  match x with
  | some i => 0 < i && i ≤ 65535
  | none => false

/-- `resolveWsRuntimePort` from `src/unnamed/part_014` lines 4022-4039: the
injected global integer wins when in range 1-65535 (source `injected`);
otherwise the PAGE LOCATION'S PORT NUMBER when in range (source `location`);
otherwise the port is null and the source `unknown`.  The `ws_port` query
parameter is never consulted by this function. -/
def resolveWsRuntimePort (env : PageEnv) : Option Int × PortSource :=
  if inPortRange env.injectedGlobal then (env.injectedGlobal, .injected)
  else if inPortRange env.locationPort then (env.locationPort, .location)
  else (none, .unknown)

/-- The claim's wording of port resolution, for comparison with the source:
an in-range injected global wins; otherwise a NUMERIC `ws_port` QUERY
PARAMETER of the page location (source `location`); otherwise unknown. -/
def claimPortResolution (env : PageEnv) : Option Int × PortSource :=
  if inPortRange env.injectedGlobal then (env.injectedGlobal, .injected)
  else
    match env.wsPortParam with
    | some i => (some i, .location)
    | none => (none, .unknown)

/-- C9 counterexample: a page loaded from `http://host:3000/?ws_port=8080`
with no injected global.  The Monitor's resolver takes the location's port
3000, while the claim dictates the `ws_port` query parameter 8080; the two
resolutions disagree, so the claim misdescribes the fallback source. -/
theorem C9_counterexample :
    resolveWsRuntimePort ⟨none, some 3000, some 8080⟩ = (some 3000, .location)
    ∧ claimPortResolution ⟨none, some 3000, some 8080⟩ = (some 8080, .location)
    ∧ resolveWsRuntimePort ⟨none, some 3000, some 8080⟩
        ≠ claimPortResolution ⟨none, some 3000, some 8080⟩ := by
  refine ⟨by decide, by decide, by decide⟩

/-- C9 (amended): port resolution runs once at Monitor startup and, in order
of preference, takes the injected global integer when in range 1-65535
(source `injected`); otherwise the page location's port number when it is an
integer in range 1-65535 (source `location`); otherwise it leaves the port
unset with source `unknown`.  The `ws_port` query parameter plays no role. -/
theorem C9_port_resolution_order (env : PageEnv) :
    (∀ i : Int, env.injectedGlobal = some i → 0 < i → i ≤ 65535 →
        resolveWsRuntimePort env = (some i, .injected))
    ∧ (¬ inPortRange env.injectedGlobal = true →
        ∀ i : Int, env.locationPort = some i → 0 < i → i ≤ 65535 →
        resolveWsRuntimePort env = (some i, .location))
    ∧ (¬ inPortRange env.injectedGlobal = true →
        ¬ inPortRange env.locationPort = true →
        resolveWsRuntimePort env = (none, .unknown))
    ∧ (∀ p : Option Int,
        resolveWsRuntimePort { env with wsPortParam := p } = resolveWsRuntimePort env) := by
  have hsome : ∀ i : Int, 0 < i → i ≤ 65535 → inPortRange (some i) = true := by
    intro i h0 h65
    simp only [inPortRange, Bool.and_eq_true, decide_eq_true_eq]
    exact ⟨h0, h65⟩
  refine ⟨?_, ?_, ?_, ?_⟩
  · intro i hi h0 h65
    have hTrue : inPortRange env.injectedGlobal = true := by
      rw [hi]; exact hsome i h0 h65
    unfold resolveWsRuntimePort
    rw [if_pos hTrue, hi]
  · intro hninj i hi h0 h65
    have hloc : inPortRange env.locationPort = true := by
      rw [hi]; exact hsome i h0 h65
    unfold resolveWsRuntimePort
    rw [if_neg hninj, if_pos hloc, hi]
  · intro hninj hnloc
    unfold resolveWsRuntimePort
    rw [if_neg hninj, if_neg hnloc]
  · intro p
    unfold resolveWsRuntimePort
    rfl

theorem C9_port_resolution_order_witness :
    (resolveWsRuntimePort ⟨some 9000, some 3000, none⟩ = (some 9000, .injected))
    ∧ (resolveWsRuntimePort ⟨some 99999, some 3000, none⟩ = (some 3000, .location))
    ∧ (resolveWsRuntimePort ⟨none, none, some 8080⟩ = (none, .unknown)) :=
  ⟨(C9_port_resolution_order ⟨some 9000, some 3000, none⟩).1 9000 rfl
      (by decide) (by decide),
   (C9_port_resolution_order ⟨some 99999, some 3000, none⟩).2.1 (by decide) 3000 rfl
      (by decide) (by decide),
   (C9_port_resolution_order ⟨none, none, some 8080⟩).2.2.1 (by decide) (by decide)⟩

/-! ### C7 and C10: producer-side de-duplication in `emitWindowLifecycle` -/

/-- The producer-side state of the lifecycle pipeline: the
`lifecycleLastSent` map (per window id, the last emitted event and its
`Date.now()` stamp) and the `lifecycleQueue`. -/
structure LifecycleState where
  lastSent : String → Option (WindowLifecycleState × Nat)
  queue : List WindowLifecyclePayload

/-- The non-suppressed tail of `emitWindowLifecycle` (lines 4377-4395):
remember `(state, now)` for this window id, build the payload, attempt an
immediate send (`sendOk` abstracts the `sendLifecycleToBackend` result) and
on failure admit the payload into the capacity-bounded queue. -/
def emitProduce (sendOk : Bool) (s : LifecycleState)
    (state : WindowLifecycleState) (wid wtitle : String) (now : Nat) :
    LifecycleState × Option WindowLifecyclePayload :=
  let payload : WindowLifecyclePayload := ⟨state, wid, wtitle, now⟩
  (⟨fun k => if k = wid then some (state, now) else s.lastSent k,
    if sendOk then s.queue else lifecycleEnqueue s.queue payload⟩,
   some payload)

/-- `emitWindowLifecycle` from `src/unnamed/part_014` lines 4370-4396
(de-dup logic identical in `backend-bridge.ts` lines 215-231): when the last
emitted event for this window id is the identical event less than 250 ms
ago, return with no payload produced; otherwise produce via `emitProduce`.
The produced payload (if any) is returned alongside the new state. -/
def emitWindowLifecycle (sendOk : Bool) (s : LifecycleState)
    (state : WindowLifecycleState) (wid wtitle : String) (now : Nat) :
    LifecycleState × Option WindowLifecyclePayload :=
  match s.lastSent wid with
  | some last =>
    if state = last.1 ∧ now - last.2 < 250 then (s, none)
    else emitProduce sendOk s state wid wtitle now
  | none => emitProduce sendOk s state wid wtitle now

/-- C7: an event identical to the previously emitted event for the same
window id occurring less than 250 ms later is suppressed — the state
(including the queue) is unchanged and no payload is produced — while two
identical events 300 ms apart both produce payloads. -/
theorem C7_identical_within_250ms_suppressed (sendOk : Bool) (s : LifecycleState)
    (state : WindowLifecycleState) (wid wtitle : String) :
    (∀ ts now : Nat, s.lastSent wid = some (state, ts) → now - ts < 250 →
        emitWindowLifecycle sendOk s state wid wtitle now = (s, none))
    ∧ (∀ t : Nat, s.lastSent wid = none →
        (emitWindowLifecycle sendOk s state wid wtitle t).2
            = some ⟨state, wid, wtitle, t⟩
        ∧ (emitWindowLifecycle sendOk
              (emitWindowLifecycle sendOk s state wid wtitle t).1
              state wid wtitle (t + 300)).2
            = some ⟨state, wid, wtitle, t + 300⟩) := by
  constructor
  · intro ts now hlast hlt
    unfold emitWindowLifecycle
    simp [hlast, hlt]
  · intro t hnone
    have h1 : emitWindowLifecycle sendOk s state wid wtitle t
        = emitProduce sendOk s state wid wtitle t := by
      unfold emitWindowLifecycle
      simp only [hnone]
    rw [h1]
    have hfst : (emitProduce sendOk s state wid wtitle t).1.lastSent wid
        = some (state, t) := by
      simp [emitProduce]
    refine ⟨rfl, ?_⟩
    unfold emitWindowLifecycle
    simp only [hfst]
    rw [if_neg (by intro hc; omega)]
    rfl

theorem C7_identical_within_250ms_suppressed_witness :
    (emitWindowLifecycle false
        ⟨fun k => if k = "win-100" then some (.minimized, 1000) else none, []⟩
        .minimized "win-100" "Calculator" 1100
      = (⟨fun k => if k = "win-100" then some (.minimized, 1000) else none, []⟩, none))
    ∧ ((emitWindowLifecycle false ⟨fun _ => none, []⟩ .minimized "win-100" "Calculator" 1000).2
        = some ⟨.minimized, "win-100", "Calculator", 1000⟩
       ∧ (emitWindowLifecycle false
            (emitWindowLifecycle false ⟨fun _ => none, []⟩
              .minimized "win-100" "Calculator" 1000).1
            .minimized "win-100" "Calculator" 1300).2
        = some ⟨.minimized, "win-100", "Calculator", 1300⟩) :=
  ⟨(C7_identical_within_250ms_suppressed false
      ⟨fun k => if k = "win-100" then some (.minimized, 1000) else none, []⟩
      .minimized "win-100" "Calculator").1 1000 1100 (by simp) (by omega),
   (C7_identical_within_250ms_suppressed false ⟨fun _ => none, []⟩
      .minimized "win-100" "Calculator").2 1000 rfl⟩

/-- Folding a sequence of lifecycle events for one window id through
`emitWindowLifecycle`, collecting the produced payloads. -/
def emitSeq (sendOk : Bool) (wid wtitle : String) (s : LifecycleState) :
    List (WindowLifecycleState × Nat) → LifecycleState × List WindowLifecyclePayload
  | [] => (s, [])
  | (ev, t) :: rest =>
    let r := emitWindowLifecycle sendOk s ev wid wtitle t
    let rr := emitSeq sendOk wid wtitle r.1 rest
    (rr.1, r.2.toList ++ rr.2)

theorem emitWindowLifecycle_produces_of_ne (sendOk : Bool) (s : LifecycleState)
    (state : WindowLifecycleState) (wid wtitle : String) (now : Nat)
    (h : ∀ last, s.lastSent wid = some last → state ≠ last.1) :
    (emitWindowLifecycle sendOk s state wid wtitle now).2
        = some ⟨state, wid, wtitle, now⟩
    ∧ (emitWindowLifecycle sendOk s state wid wtitle now).1.lastSent wid
        = some (state, now) := by
  have hprodr : emitWindowLifecycle sendOk s state wid wtitle now
      = emitProduce sendOk s state wid wtitle now := by
    unfold emitWindowLifecycle
    cases hl : s.lastSent wid with
    | some last =>
      simp only []
      rw [if_neg (fun hc => h last hl hc.1)]
    | none => simp only []
  rw [hprodr]
  exact ⟨rfl, by simp [emitProduce]⟩

theorem emitSeq_all_produced (sendOk : Bool) (wid wtitle : String)
    (evs : List (WindowLifecycleState × Nat)) (s : LifecycleState)
    (hfirst : ∀ hd, evs.head? = some hd → ∀ last, s.lastSent wid = some last →
        hd.1 ≠ last.1)
    (hchain : evs.Chain' (fun a b => a.1 ≠ b.1)) :
    (emitSeq sendOk wid wtitle s evs).2.length = evs.length := by
  induction evs generalizing s with
  | nil => simp [emitSeq]
  | cons e rest ih =>
    obtain ⟨ev, t⟩ := e
    have hprod := emitWindowLifecycle_produces_of_ne sendOk s ev wid wtitle t
      (fun last hl => hfirst (ev, t) rfl last hl)
    have hrest : (emitSeq sendOk wid wtitle
        (emitWindowLifecycle sendOk s ev wid wtitle t).1 rest).2.length
        = rest.length := by
      apply ih
      · intro hd hhd last hl
        rw [hprod.2] at hl
        cases hl
        have := List.chain'_cons'.mp hchain
        exact (this.1 hd hhd).symm
      · exact (List.chain'_cons'.mp hchain).2
    simp [emitSeq, hprod.1, hrest]

/-- C10: the de-duplication remembers only the most recent
`(event, timestamp)` pair per window id, so a sequence of lifecycle events
for one window in which consecutive events are distinct (for example
minimized, restored, minimized) is never suppressed, whatever the
timestamps — even all within 250 ms: every event of the sequence produces a
payload. -/
theorem C10_alternating_events_never_suppressed (sendOk : Bool)
    (wid wtitle : String) (evs : List (WindowLifecycleState × Nat))
    (s : LifecycleState) (hfresh : s.lastSent wid = none)
    (hchain : evs.Chain' (fun a b => a.1 ≠ b.1)) :
    (emitSeq sendOk wid wtitle s evs).2.length = evs.length :=
  emitSeq_all_produced sendOk wid wtitle evs s
    (fun _ _ last hl => absurd (hfresh ▸ hl) (by simp)) hchain

theorem C10_alternating_events_never_suppressed_witness :
    (emitSeq false "win-100" "Calculator" ⟨fun _ => none, []⟩
        [(.minimized, 0), (.restored, 50), (.minimized, 100)]).2.length
      = ([(.minimized, 0), (.restored, 50), (.minimized, 100)]
          : List (WindowLifecycleState × Nat)).length :=
  C10_alternating_events_never_suppressed false "win-100" "Calculator"
    [(.minimized, 0), (.restored, 50), (.minimized, 100)]
    ⟨fun _ => none, []⟩ rfl (by simp)

/-! ### Window Registry: `activeWindows` and the winbox callbacks -/

/-- The `WindowInfo` record of the source (`winboxInstance`, an opaque
reference to the external window-manager object, is omitted: the registry
only calls through it, and those calls re-enter the registry via the
callbacks modelled below). -/
structure WindowInfo where
  id : String
  title : String
  minimized : Bool
  maximized : Bool
  active : Bool
deriving DecidableEq, Repr

def idsOf (ws : List WindowInfo) : List String := ws.map (·.id)

def titlesOf (ws : List WindowInfo) : List String := ws.map (·.title)

def countActive (ws : List WindowInfo) : Nat := ws.countP (fun w => w.active)

/-- The `onminimize` callback wired in `openWindow` (lines 4454-4460):
mark the target window minimized and inactive. -/
def onminimize (wid : String) (ws : List WindowInfo) : List WindowInfo :=
  ws.map fun w =>
    if w.id == wid then { w with minimized := true, active := false } else w

/-- The `onrestore` callback (lines 4461-4470): clear minimized/maximized on
the target and make it the only active window. -/
def onrestore (wid : String) (ws : List WindowInfo) : List WindowInfo :=
  ws.map fun w =>
    { w with
      minimized := if w.id == wid then false else w.minimized,
      maximized := if w.id == wid then false else w.maximized,
      active := w.id == wid }

/-- The `onmaximize` callback (lines 4471-4486), state part: the target
becomes the only maximized and only active window and is unminimized. -/
def onmaximize (wid : String) (ws : List WindowInfo) : List WindowInfo :=
  ws.map fun w =>
    { w with
      maximized := w.id == wid,
      active := w.id == wid,
      minimized := if w.id == wid then false else w.minimized }

/-- The `onfocus` callback (lines 4487-4495): the target becomes the only
active window and is unminimized. -/
def onfocus (wid : String) (ws : List WindowInfo) : List WindowInfo :=
  ws.map fun w =>
    { w with
      active := w.id == wid,
      minimized := if w.id == wid then false else w.minimized }

/-- The `onblur` callback (lines 4496-4501): the target becomes inactive. -/
def onblur (wid : String) (ws : List WindowInfo) : List WindowInfo :=
  ws.map fun w => if w.id == wid then { w with active := false } else w

/-- The `onclose` callback (lines 4502-4511), state part: the record is
removed entirely. -/
def onclose (wid : String) (ws : List WindowInfo) : List WindowInfo :=
  ws.filter fun w => !(w.id == wid)

/-- `hideAllWindows` (lines 4619-4635), state part: every non-minimized
window becomes minimized, unmaximized and inactive. -/
def hideAllWindows (ws : List WindowInfo) : List WindowInfo :=
  ws.map fun w =>
    if !w.minimized then { w with minimized := true, maximized := false, active := false }
    else w

/-- `closeAllWindows` (lines 4610-4617), state part. -/
def closeAllWindows (_ws : List WindowInfo) : List WindowInfo := []

/-- `openWindow` from `src/unnamed/part_014` lines 4410-4532, state and
`opened`-emission part.  If a record with the same title exists: the source
calls `restore()` on the handle when the record is minimized and then
`focus()`; the window-manager collaborator invokes the registered
`onrestore`/`onfocus` callbacks for those calls (the source's direct
`existingWindow.minimized = false` assignment is subsumed by `onrestore`),
no new record is appended and no `opened` event is emitted.  Otherwise all
records are deactivated, the new record (id `'win-' + Date.now()`, modelled
by `newId`) is appended as active, and `opened` is emitted. -/
def openWindow (title newId : String) (ws : List WindowInfo) :
    List WindowInfo × List WindowLifecycleState :=
  match ws.find? (fun w => w.title == title) with
  | some existing =>
    let ws1 := if existing.minimized then onrestore existing.id ws else ws
    (onfocus existing.id ws1, [])
  | none =>
    ((ws.map fun w => { w with active := false }) ++ [⟨newId, title, false, false, true⟩],
     [.opened])

/-- A registry operation: an `openWindow` request or one of the callbacks
fired by the window-manager collaborator (including the hide-all / close-all
batch operations). -/
inductive WinOp where
  | openW (title newId : String)
  | minimizeCb (wid : String)
  | restoreCb (wid : String)
  | maximizeCb (wid : String)
  | focusCb (wid : String)
  | blurCb (wid : String)
  | closeCb (wid : String)
  | hideAll
  | closeAll

def applyWinOp (ws : List WindowInfo) : WinOp → List WindowInfo
  | .openW title newId => (openWindow title newId ws).1
  | .minimizeCb wid => onminimize wid ws
  | .restoreCb wid => onrestore wid ws
  | .maximizeCb wid => onmaximize wid ws
  | .focusCb wid => onfocus wid ws
  | .blurCb wid => onblur wid ws
  | .closeCb wid => onclose wid ws
  | .hideAll => hideAllWindows ws
  | .closeAll => closeAllWindows ws

def applyWinOps (ws : List WindowInfo) (ops : List WinOp) : List WindowInfo :=
  ops.foldl applyWinOp ws

/-- Freshness of generated window ids: when an `openWindow` request actually
appends a record (no same-title record exists), its generated id
(`'win-' + Date.now()`) is not already in the registry.  This encodes the
wall clock not producing a colliding `Date.now()` value. -/
def freshOk (ws : List WindowInfo) : WinOp → Bool
  | .openW title newId =>
      (ws.find? (fun w => w.title == title)).isSome || !((idsOf ws).contains newId)
  | _ => true

def freshTrace (ws : List WindowInfo) : List WinOp → Bool
  | [] => true
  | op :: rest => freshOk ws op && freshTrace (applyWinOp ws op) rest

theorem idsOf_map_eq (f : WindowInfo → WindowInfo) (hf : ∀ w, (f w).id = w.id)
    (ws : List WindowInfo) : idsOf (ws.map f) = idsOf ws := by
  induction ws with
  | nil => rfl
  | cons w t ih => simp only [idsOf, List.map_cons] at ih ⊢; rw [hf w, ih]

theorem titlesOf_map_eq (f : WindowInfo → WindowInfo)
    (hf : ∀ w, (f w).title = w.title) (ws : List WindowInfo) :
    titlesOf (ws.map f) = titlesOf ws := by
  induction ws with
  | nil => rfl
  | cons w t ih => simp only [titlesOf, List.map_cons] at ih ⊢; rw [hf w, ih]

theorem countActive_map_activate (f : WindowInfo → WindowInfo) (wid : String)
    (hact : ∀ w, (f w).active = (w.id == wid)) (ws : List WindowInfo) :
    countActive (ws.map f) = ws.countP (fun w => w.id == wid) := by
  induction ws with
  | nil => rfl
  | cons w t ih =>
    simp only [countActive, List.map_cons, List.countP_cons, hact] at ih ⊢
    rw [ih]

theorem countP_id_le_one (wid : String) (ws : List WindowInfo)
    (h : (idsOf ws).Nodup) : ws.countP (fun w => w.id == wid) ≤ 1 := by
  induction ws with
  | nil => simp
  | cons w t ih =>
    rw [idsOf, List.map_cons, List.nodup_cons] at h
    by_cases hw : w.id = wid
    · have ht : t.countP (fun w => w.id == wid) = 0 := by
        apply List.countP_eq_zero.mpr
        intro x hx
        simp only [beq_iff_eq]
        intro hxx
        have hxmem : x.id ∈ List.map (fun x => x.id) t := List.mem_map_of_mem _ hx
        rw [hxx, ← hw] at hxmem
        exact h.1 hxmem
      simp [List.countP_cons, hw, ht]
    · have := ih h.2
      simp [List.countP_cons, hw]
      omega

theorem countActive_map_le (f : WindowInfo → WindowInfo)
    (hf : ∀ w, (f w).active = true → w.active = true) (ws : List WindowInfo) :
    countActive (ws.map f) ≤ countActive ws := by
  induction ws with
  | nil => simp [countActive]
  | cons w t ih =>
    simp only [countActive, List.map_cons, List.countP_cons] at ih ⊢
    by_cases hfw : (f w).active = true
    · rw [if_pos hfw, if_pos (hf w hfw)]
      omega
    · rw [if_neg hfw]
      by_cases hw : w.active = true
      · rw [if_pos hw]; omega
      · rw [if_neg hw]; omega

theorem countActive_map_deactivate (f : WindowInfo → WindowInfo)
    (hf : ∀ w, (f w).active = false) (ws : List WindowInfo) :
    countActive (ws.map f) = 0 := by
  induction ws with
  | nil => rfl
  | cons w t ih =>
    simp only [countActive, List.map_cons, List.countP_cons, hf] at ih ⊢
    simp [ih]

/-- The registry's invariant: window ids are pairwise distinct and at most
one record is active. -/
def RegistryWF (ws : List WindowInfo) : Prop :=
  (idsOf ws).Nodup ∧ countActive ws ≤ 1

theorem RegistryWF_activate (wid : String) (ws : List WindowInfo)
    (f : WindowInfo → WindowInfo) (hid : ∀ w, (f w).id = w.id)
    (hact : ∀ w, (f w).active = (w.id == wid)) (hnd : (idsOf ws).Nodup) :
    RegistryWF (ws.map f) := by
  constructor
  · rw [idsOf_map_eq f hid ws]; exact hnd
  · rw [countActive, show (ws.map f).countP (fun w => w.active) = countActive (ws.map f)
      from rfl, countActive_map_activate f wid hact ws]
    exact countP_id_le_one wid ws hnd

theorem RegistryWF_mono_map (ws : List WindowInfo) (f : WindowInfo → WindowInfo)
    (hid : ∀ w, (f w).id = w.id) (hact : ∀ w, (f w).active = true → w.active = true)
    (h : RegistryWF ws) : RegistryWF (ws.map f) := by
  obtain ⟨hnd, hcnt⟩ := h
  constructor
  · rw [idsOf_map_eq f hid ws]; exact hnd
  · exact le_trans (countActive_map_le f hact ws) hcnt

theorem idsOf_onrestore (wid : String) (ws : List WindowInfo) :
    idsOf (onrestore wid ws) = idsOf ws := by
  unfold onrestore
  apply idsOf_map_eq
  intro w
  rfl

theorem idsOf_deactivateAll (ws : List WindowInfo) :
    idsOf (ws.map fun w => { w with active := false }) = idsOf ws := by
  apply idsOf_map_eq
  intro w
  rfl

theorem countActive_deactivateAll (ws : List WindowInfo) :
    countActive (ws.map fun w => { w with active := false }) = 0 := by
  apply countActive_map_deactivate
  intro w
  rfl

theorem applyWinOp_preserves_WF (ws : List WindowInfo) (op : WinOp)
    (hwf : RegistryWF ws) (hfresh : freshOk ws op = true) :
    RegistryWF (applyWinOp ws op) := by
  obtain ⟨hnd, hcnt⟩ := hwf
  cases op with
  | openW title newId =>
    show RegistryWF (openWindow title newId ws).1
    cases hfind : ws.find? (fun w => w.title == title) with
    | some existing =>
      have hshape : (openWindow title newId ws).1
          = onfocus existing.id
              (if existing.minimized then onrestore existing.id ws else ws) := by
        unfold openWindow; rw [hfind]
      rw [hshape]
      by_cases hmin : existing.minimized = true
      · rw [if_pos hmin]
        have hnd1 : (idsOf (onrestore existing.id ws)).Nodup := by
          rw [idsOf_onrestore]; exact hnd
        unfold onfocus
        refine RegistryWF_activate existing.id _ _ ?_ ?_ hnd1
        · intro w; rfl
        · intro w; rfl
      · rw [if_neg hmin]
        unfold onfocus
        refine RegistryWF_activate existing.id ws _ ?_ ?_ hnd
        · intro w; rfl
        · intro w; rfl
    | none =>
      have hshape : (openWindow title newId ws).1
          = (ws.map fun w => { w with active := false })
              ++ [⟨newId, title, false, false, true⟩] := by
        unfold openWindow; rw [hfind]
      rw [hshape]
      have hnotin : newId ∉ idsOf ws := by
        have hfr : ((ws.find? (fun w => w.title == title)).isSome
            || !((idsOf ws).contains newId)) = true := hfresh
        rw [hfind] at hfr
        simp at hfr
        exact hfr
      constructor
      · rw [idsOf, List.map_append, ← idsOf, idsOf_deactivateAll]
        simp only [List.map_cons, List.map_nil]
        rw [List.nodup_append]
        exact ⟨hnd, List.nodup_singleton _, by simpa using fun h => hnotin h⟩
      · have h0 := countActive_deactivateAll ws
        unfold countActive at h0 ⊢
        rw [List.countP_append, h0]
        simp
  | minimizeCb wid =>
    show RegistryWF (onminimize wid ws)
    unfold onminimize
    apply RegistryWF_mono_map ws _ ?_ ?_ ⟨hnd, hcnt⟩
    · intro w; by_cases h : (w.id == wid) = true <;> simp [h]
    · intro w; by_cases h : (w.id == wid) = true <;> simp [h]
  | restoreCb wid =>
    show RegistryWF (onrestore wid ws)
    unfold onrestore
    exact RegistryWF_activate wid ws _ (fun w => rfl) (fun w => rfl) hnd
  | maximizeCb wid =>
    show RegistryWF (onmaximize wid ws)
    unfold onmaximize
    exact RegistryWF_activate wid ws _ (fun w => rfl) (fun w => rfl) hnd
  | focusCb wid =>
    show RegistryWF (onfocus wid ws)
    unfold onfocus
    exact RegistryWF_activate wid ws _ (fun w => rfl) (fun w => rfl) hnd
  | blurCb wid =>
    show RegistryWF (onblur wid ws)
    unfold onblur
    apply RegistryWF_mono_map ws _ ?_ ?_ ⟨hnd, hcnt⟩
    · intro w; by_cases h : (w.id == wid) = true <;> simp [h]
    · intro w; by_cases h : (w.id == wid) = true <;> simp [h]
  | closeCb wid =>
    show RegistryWF (onclose wid ws)
    unfold onclose
    constructor
    · exact List.Nodup.sublist (List.Sublist.map _ (List.filter_sublist ws)) hnd
    · exact le_trans (List.Sublist.countP_le _ (List.filter_sublist ws)) hcnt
  | hideAll =>
    show RegistryWF (hideAllWindows ws)
    unfold hideAllWindows
    apply RegistryWF_mono_map ws _ ?_ ?_ ⟨hnd, hcnt⟩
    · intro w; by_cases h : (!w.minimized) = true <;> simp [h]
    · intro w; by_cases h : (!w.minimized) = true <;> simp [h]
  | closeAll =>
    show RegistryWF (closeAllWindows ws)
    exact ⟨List.nodup_nil, by simp [closeAllWindows, countActive]⟩

theorem applyWinOps_WF (ops : List WinOp) (ws : List WindowInfo)
    (hwf : RegistryWF ws) (htrace : freshTrace ws ops = true) :
    RegistryWF (applyWinOps ws ops) := by
  induction ops generalizing ws with
  | nil => exact hwf
  | cons op rest ih =>
    unfold freshTrace at htrace
    rw [Bool.and_eq_true] at htrace
    exact ih (applyWinOp ws op)
      (applyWinOp_preserves_WF ws op hwf htrace.1) htrace.2

/-- C6: starting from the empty registry, after any sequence of open, focus,
minimize, restore, maximize, blur, hide-all, close and close-all operations
(with `Date.now()`-generated ids fresh when a record is actually appended),
at most one `WindowRecord` has `active = true`; moreover each
activating callback (`onfocus`, `onrestore`, `onmaximize`) leaves `active =
true` only on the record whose id it targets — every other record ends up
with `active = false`. -/
theorem C6_at_most_one_active_window (ops : List WinOp)
    (htrace : freshTrace [] ops = true) :
    countActive (applyWinOps [] ops) ≤ 1
    ∧ (∀ (ws : List WindowInfo) (wid : String) (w : WindowInfo),
        (w ∈ onfocus wid ws ∨ w ∈ onrestore wid ws ∨ w ∈ onmaximize wid ws) →
        w.active = true → w.id = wid) := by
  constructor
  · exact (applyWinOps_WF ops [] ⟨List.nodup_nil, by simp [countActive]⟩ htrace).2
  · intro ws wid w hmem hact
    have hgen : ∀ (f : WindowInfo → WindowInfo), w ∈ ws.map f →
        (∀ x, (f x).id = x.id) → (∀ x, (f x).active = (x.id == wid)) →
        w.id = wid := by
      intro f hm hid hactf
      obtain ⟨x, _, hfx⟩ := List.mem_map.mp hm
      have : (x.id == wid) = true := by rw [← hactf x, hfx, hact]
      rw [← hfx, hid x]
      exact beq_iff_eq.mp this
    rcases hmem with hm | hm | hm
    · unfold onfocus at hm
      exact hgen _ hm (fun x => rfl) (fun x => rfl)
    · unfold onrestore at hm
      exact hgen _ hm (fun x => rfl) (fun x => rfl)
    · unfold onmaximize at hm
      exact hgen _ hm (fun x => rfl) (fun x => rfl)

theorem C6_at_most_one_active_window_witness :
    countActive (applyWinOps []
      [.openW "Calculator" "win-1", .openW "Text Editor" "win-2", .focusCb "win-1"]) ≤ 1 :=
  (C6_at_most_one_active_window
    [.openW "Calculator" "win-1", .openW "Text Editor" "win-2", .focusCb "win-1"]
    (by decide)).1

/-! ### C8: idempotent reopen -/

/-- C8: calling `openWindow` with a title for which a record already exists
creates no second record and emits no `opened` event: the record ids and
titles are exactly those of the registry before the call (so the set of
records is unchanged), and the matched record ends up focused (`active =
true`) and un-minimized; the operation returns early through the
restore-and-focus path. -/
theorem C8_reopen_is_idempotent (ws : List WindowInfo) (title newId : String)
    (e : WindowInfo) (hfind : ws.find? (fun w => w.title == title) = some e) :
    (openWindow title newId ws).2 = []
    ∧ idsOf (openWindow title newId ws).1 = idsOf ws
    ∧ titlesOf (openWindow title newId ws).1 = titlesOf ws
    ∧ (∀ w ∈ (openWindow title newId ws).1,
        w.id = e.id → w.active = true ∧ w.minimized = false)
    ∧ (∃ w ∈ (openWindow title newId ws).1, w.id = e.id) := by
  have hshape : openWindow title newId ws
      = (onfocus e.id (if e.minimized then onrestore e.id ws else ws), []) := by
    unfold openWindow; rw [hfind]
  have hids1 : idsOf (if e.minimized then onrestore e.id ws else ws) = idsOf ws := by
    by_cases hmin : e.minimized = true
    · rw [if_pos hmin, idsOf_onrestore]
    · rw [if_neg hmin]
  have htitles1 : titlesOf (if e.minimized then onrestore e.id ws else ws)
      = titlesOf ws := by
    by_cases hmin : e.minimized = true
    · rw [if_pos hmin]
      unfold onrestore
      apply titlesOf_map_eq
      intro w
      rfl
    · rw [if_neg hmin]
  have hids : idsOf (openWindow title newId ws).1 = idsOf ws := by
    rw [hshape]
    show idsOf (onfocus e.id _) = idsOf ws
    unfold onfocus
    rw [idsOf_map_eq _ ?_ _]
    · exact hids1
    · intro w; rfl
  refine ⟨by rw [hshape], hids, ?_, ?_, ?_⟩
  · rw [hshape]
    show titlesOf (onfocus e.id _) = titlesOf ws
    unfold onfocus
    rw [titlesOf_map_eq _ ?_ _]
    · exact htitles1
    · intro w; rfl
  · intro w hw hwid
    rw [hshape] at hw
    unfold onfocus at hw
    obtain ⟨x, _, hfx⟩ := List.mem_map.mp hw
    have hxid : x.id = e.id := by rw [← hwid, ← hfx]
    have hbeq : (x.id == e.id) = true := beq_iff_eq.mpr hxid
    constructor
    · rw [← hfx]
      show (x.id == e.id) = true
      exact hbeq
    · rw [← hfx]
      show (if x.id == e.id then false else x.minimized) = false
      rw [if_pos hbeq]
  · have hmem : e ∈ ws := List.mem_of_find?_eq_some hfind
    have : e.id ∈ idsOf (openWindow title newId ws).1 := by
      rw [hids]
      exact List.mem_map_of_mem _ hmem
    obtain ⟨w, hw, hwe⟩ := List.mem_map.mp this
    exact ⟨w, hw, hwe⟩

theorem C8_reopen_is_idempotent_witness :
    ((openWindow "Calculator" "win-9"
        [⟨"win-1", "Calculator", true, false, false⟩]).2 = [])
    ∧ idsOf (openWindow "Calculator" "win-9"
        [⟨"win-1", "Calculator", true, false, false⟩]).1
      = idsOf [⟨"win-1", "Calculator", true, false, false⟩]
    ∧ (∃ w ∈ (openWindow "Calculator" "win-9"
        [⟨"win-1", "Calculator", true, false, false⟩]).1,
        w.id = (⟨"win-1", "Calculator", true, false, false⟩ : WindowInfo).id) := by
  have h := C8_reopen_is_idempotent [⟨"win-1", "Calculator", true, false, false⟩]
    "Calculator" "win-9" ⟨"win-1", "Calculator", true, false, false⟩ (by decide)
  exact ⟨h.1, h.2.1, h.2.2.2.2⟩

end WebuiBridge
